import Mathlib

/-!
Verification development for the Toronto-Transit-Delays dashboard
(src/js/dataLoader.js, src/js/app.js).

The JavaScript data pipeline is embedded shallowly:

* JS numbers are modelled as exact rationals (`ℚ`).  All the concrete
  computations checked below stay far away from IEEE-754 rounding
  boundaries, so the exact-rational results coincide with the
  double-precision ones.
* JS `null`/`undefined` flowing through a numeric field is modelled by
  `Option ℚ`; reading such a field in an arithmetic position uses
  `numD` (`Option.getD · 0`), matching the JS coercion `Number(null) = 0`.
* A division whose JS result would be `NaN` or `±Infinity`
  (denominator 0) is modelled by `jsDiv` returning `none`.
* Strings are Lean `String`s; the handful of string operations the code
  uses (`trim`, `split`, `toLowerCase`, `includes`) are implemented on
  character lists below so that every proof can be checked by evaluation.
* Fallible fetches are modelled by an `Option` argument at the load
  boundary: `none` stands for a rejected fetch / malformed payload
  (anything that makes the `try` block throw), `some payload` for a
  successfully fetched and parsed payload.
-/

/-! ## JS primitives -/

/-- JS `Math.round`: round half toward positive infinity. -/
def jsRound (q : ℚ) : ℤ := ⌊q + 1/2⌋

/-- JS division, with `none` standing for the non-finite results
(`NaN` / `±Infinity`) produced when the denominator is `0`. -/
def jsDiv (a b : ℚ) : Option ℚ := if b = 0 then none else some (a / b)

/-- Reading a possibly-`null` numeric field in an arithmetic position:
JS coerces `null`/`undefined`-as-`null` to `0`. -/
def numD (o : Option ℚ) : ℚ := o.getD 0

/-- Whitespace for `trim` (the ASCII whitespace actually occurring in the
data files; JS `trim` strips a larger Unicode class, none of which the
inputs contain). -/
def wsChar (c : Char) : Bool := c = ' ' || c = '\t' || c = '\n' || c = '\r'

/-- JS `String.prototype.trim` on a character list. -/
def trimChars (l : List Char) : List Char :=
  ((l.dropWhile wsChar).reverse.dropWhile wsChar).reverse

/-- JS `String.prototype.trim`. -/
def jsTrim (s : String) : String := String.mk (trimChars s.data)

/-- JS `String.prototype.split` with a single-character separator:
`"".split(c) = [""]`, separators delimit (possibly empty) fields. -/
def splitChar (sep : Char) : List Char → List (List Char)
  | [] => [[]]
  | c :: cs =>
    let r := splitChar sep cs
    if c = sep then [] :: r
    else
      match r with
      | [] => [[c]]
      | h :: t => (c :: h) :: t

/-- JS `String.prototype.toLowerCase` (ASCII, which covers every string
the code compares). -/
def lowerChars (l : List Char) : List Char := l.map Char.toLower

/-- JS `String.prototype.toLowerCase` on `String`. -/
def jsToLower (s : String) : String := String.mk (lowerChars s.data)

/-- `needle` is a prefix of `hay`. -/
def startsWithChars : List Char → List Char → Bool
  | _, [] => true
  | [], _ :: _ => false
  | h :: hs, n :: ns => h = n && startsWithChars hs ns

/-- JS `String.prototype.includes`: contiguous substring test. -/
def containsSub (hay needle : List Char) : Bool :=
  match hay with
  | [] => needle.isEmpty
  | _ :: t => startsWithChars hay needle || containsSub t needle

/-- JS `hay.includes(needle)` on `String`. -/
def jsIncludes (hay needle : String) : Bool := containsSub hay.data needle.data

/-- Value of one hexadecimal digit, as accepted by JS `parseInt(·, 16)`. -/
def hexDigit? (c : Char) : Option ℕ :=
  if '0' ≤ c ∧ c ≤ '9' then some (c.toNat - '0'.toNat)
  else if 'a' ≤ c ∧ c ≤ 'f' then some (c.toNat - 'a'.toNat + 10)
  else if 'A' ≤ c ∧ c ≤ 'F' then some (c.toNat - 'A'.toNat + 10)
  else none

/-- Accumulating part of `parseInt(·, 16)`: consume digits while valid. -/
def jsParseHexGo : List Char → ℕ → ℕ
  | [], acc => acc
  | c :: cs, acc =>
    match hexDigit? c with
    | some v => jsParseHexGo cs (16 * acc + v)
    | none => acc

/-- JS `parseInt(s, 16)`: parse a maximal leading run of hex digits,
`none` (`NaN`) when the first character is not a hex digit.  Leading
whitespace, signs and a `0x` marker are not modelled — the call sites
only ever pass two-character slices of colour strings. -/
def jsParseHex (l : List Char) : Option ℕ :=
  match l with
  | [] => none
  | c :: cs =>
    match hexDigit? c with
    | some v => some (jsParseHexGo cs v)
    | none => none

/-- Lowercase hex digit character for a nibble (the digits produced by JS
`Number.prototype.toString(16)`). -/
def hexChar (n : ℕ) : Char :=
  if n < 10 then Char.ofNat ('0'.toNat + n) else Char.ofNat ('a'.toNat + n - 10)

/-- Hex digits of `n`, least significant first (fuelled so that the
definition is structural; `natToHexRev` supplies enough fuel). -/
def natToHexRevAux : ℕ → ℕ → List Char
  | 0, _ => []
  | fuel + 1, n =>
    if n = 0 then [] else hexChar (n % 16) :: natToHexRevAux fuel (n / 16)

/-- Hex digits of `n`, least significant first; `[]` for `0`. -/
def natToHexRev (n : ℕ) : List Char := natToHexRevAux (n + 1) n

/-- JS `n.toString(16)` for a non-negative number. -/
def jsHexStringNat (n : ℕ) : String :=
  if n = 0 then "0" else String.mk (natToHexRev n).reverse

/-- JS `i.toString(16)` for an integer (negative numbers render with a
leading minus sign). -/
def jsHexString (i : ℤ) : String :=
  if i < 0 then "-" ++ jsHexStringNat (-i).toNat else jsHexStringNat i.toNat

/-! ## MapVisualizer: colour interpolation and colour scales
(src/js/dataLoader.js, `MapVisualizer`) -/

/-- JS `color.replace('#', '')`: removes the first `#` occurrence. -/
def removeFirstHash : List Char → List Char
  | [] => []
  | c :: cs => if c = '#' then cs else c :: removeFirstHash cs

/-- 32-bit wrap used by the JS shift operators (`ToInt32`). -/
def toInt32 (n : ℤ) : ℤ := (n + 2 ^ 31) % 2 ^ 32 - 2 ^ 31

/-- JS `a << k` (operand and result wrapped to signed 32 bits). -/
def jsShl (a : ℤ) (k : ℕ) : ℤ := toInt32 (toInt32 a * 2 ^ k)

/-- `MapVisualizer.interpolateColor(color1, color2, ratio)`.  Parses the
three channel pairs of each colour, linearly interpolates and rounds each
channel, and reassembles `'#' + ((1<<24)+(r<<16)+(g<<8)+b).toString(16).slice(1)`.
When one of the six channel parses fails JS would thread `NaN` through and
build a garbage non-colour string; that case — never reached by the
colours the visualizer is configured with — is modelled as `none`. -/
def interpolateColor (color1 color2 : String) (ratio : ℚ) : Option String :=
  let h1 := removeFirstHash color1.data
  let h2 := removeFirstHash color2.data
  match jsParseHex (h1.take 2), jsParseHex ((h1.drop 2).take 2),
      jsParseHex ((h1.drop 4).take 2), jsParseHex (h2.take 2),
      jsParseHex ((h2.drop 2).take 2), jsParseHex ((h2.drop 4).take 2) with
  | some r1, some g1, some b1, some r2, some g2, some b2 =>
    let r : ℤ := jsRound ((r1 : ℚ) + ((r2 : ℚ) - (r1 : ℚ)) * ratio)
    let g : ℤ := jsRound ((g1 : ℚ) + ((g2 : ℚ) - (g1 : ℚ)) * ratio)
    let b : ℤ := jsRound ((b1 : ℚ) + ((b2 : ℚ) - (b1 : ℚ)) * ratio)
    some (String.mk
      ('#' :: (jsHexString (jsShl 1 24 + jsShl r 16 + jsShl g 8 + b)).data.drop 1))
  | _, _, _, _, _, _ => none

/-- Loop body of the closure returned by `MapVisualizer.createColorScale`:
scan consecutive breakpoint pairs; on the first interval containing the
value, interpolate between the matching colours.  `none` means no
interval matched. -/
def findSegment (value : ℚ) : List ℚ → List String → Option (Option String)
  | b0 :: b1 :: bs, c0 :: c1 :: cs =>
    if b0 ≤ value ∧ value ≤ b1 then
      match jsDiv (value - b0) (b1 - b0) with
      | some ratio => some (interpolateColor c0 c1 ratio)
      | none => some none
    else findSegment value (b1 :: bs) (c1 :: cs)
  | _, _ => none

/-- `MapVisualizer.createColorScale(breaks, colors)` applied to a value:
clamp to `colors[0]` below the first break and to the last colour above
the last break, otherwise interpolate inside the containing segment,
falling back to `colors[0]` when no segment matches.  (Called with empty
`breaks`/`colors` JS would yield `undefined`; modelled as `none`,
unreachable from the call sites.) -/
def createColorScale (breaks : List ℚ) (colors : List String) (value : ℚ) :
    Option String :=
  match breaks, colors with
  | b0 :: bs, c0 :: cs =>
    let bLast := bs.getLastD b0
    let cLast := cs.getLastD c0
    if value ≤ b0 then some c0
    else if bLast ≤ value then some cLast
    else
      match findSegment value (b0 :: bs) (c0 :: cs) with
      | some res => res
      | none => some c0
  | _, _ => none

/-- `this.config.routeDelay.colors`. -/
def routeDelayColors : List String := ["#10b981", "#f59e0b", "#ef4444", "#7c3aed"]

/-- `this.config.frequency.colors`. -/
def frequencyColors : List String := ["#93c5fd", "#3b82f6", "#1d4ed8", "#7e22ce"]

/-- `this.config.frequency.minWeight`. -/
def frequencyMinWeight : ℚ := 3

/-- `this.config.frequency.maxWeight`. -/
def frequencyMaxWeight : ℚ := 8

/-- JS `Math.max(...)` over a spread array.  (On an empty array JS gives
`-Infinity`; every call site below passes a non-empty array, so the `[]`
case is arbitrary.) -/
def mathMax : List ℚ → ℚ
  | [] => 0
  | x :: xs => xs.foldl max x

/-- JS `Math.min(...)` over a spread array (same remark as `mathMax`). -/
def mathMin : List ℚ → ℚ
  | [] => 0
  | x :: xs => xs.foldl min x

/-! ## Data model (`DataLoader`) -/

/-- A processed route-performance record, as built by
`DataLoader.loadRoutePerformance` (and by the sample data).  Numeric
fields are `Option ℚ` because `parseNumber` yields `null` for
unparseable cells. -/
structure RouteRecord where
  Route : String
  route_long_name : String
  Avg_Delay_Min : Option ℚ
  Delay_Count : Option ℚ
  Total_Delay_Min : Option ℚ
  On_Time_Percentage : Option ℚ
  Delay_Frequency : Option ℚ
deriving DecidableEq, Repr

/-- A parsed CSV row: a JS object with string values, keys in insertion
order. -/
abbrev CsvRow := List (String × String)

/-- JS property read `row[k]` on a parsed object (`none` = `undefined`). -/
def rowGet (row : CsvRow) (k : String) : Option String := row.lookup k

/-- JS object property assignment `row[k] = v`: updating an existing key
keeps its insertion position, a new key is appended. -/
def objSet : CsvRow → String → String → CsvRow
  | [], k, v => [(k, v)]
  | (k', v') :: rest, k, v =>
    if k' = k then (k', v) :: rest else (k', v') :: objSet rest k v

/-- `DataLoader.cleanRouteId`.  Both call sites pass a string or
`undefined` (CSV cells and JSON object keys), so the numeric branch of
the source (`toString` on a number) never fires and is not modelled;
`undefined` (and any other non-string) yields `""`. -/
def cleanRouteId : Option String → String
  | some s => jsTrim s
  | none => ""

/-- JS `parseFloat` restricted to the decimal number shapes occurring in
the data files: optional sign, digits, optional fraction; `none` = `NaN`.
(Exponent notation and leading whitespace are not exercised by any claim
and are not modelled.) -/
def jsParseFloat (s : String) : Option ℚ :=
  let afterSign : List Char × Bool :=
    match s.data with
    | '-' :: rest => (rest, true)
    | '+' :: rest => (rest, false)
    | l => (l, false)
  let intPart := afterSign.1.takeWhile Char.isDigit
  let rest := afterSign.1.dropWhile Char.isDigit
  let fracPart : List Char :=
    match rest with
    | '.' :: r => r.takeWhile Char.isDigit
    | _ => []
  if intPart = [] ∧ fracPart = [] then none
  else
    let ip : ℕ := intPart.foldl (fun a c => 10 * a + (c.toNat - '0'.toNat)) 0
    let fp : ℕ := fracPart.foldl (fun a c => 10 * a + (c.toNat - '0'.toNat)) 0
    let mag : ℚ := (ip : ℚ) + (fp : ℚ) / ((10 : ℚ) ^ fracPart.length)
    some (if afterSign.2 then -mag else mag)

/-- `DataLoader.parseNumber`: `null`/`undefined`/`''` ↦ `null`, otherwise
`parseFloat` with a `NaN` check. -/
def parseNumber : Option String → Option ℚ
  | none => none
  | some s => if s = "" then none else jsParseFloat s

/-- `DataLoader.isValidCoordinate` on two numbers.  (The `null` and `NaN`
guards of the source are vacuous for `ℚ` arguments; the range checks are
the content.) -/
def isValidCoordinate (lat lng : ℚ) : Bool :=
  decide (-90 ≤ lat) && decide (lat ≤ 90) && decide (-180 ≤ lng) && decide (lng ≤ 180)

/-! ## DataLoader: CSV parsing -/

/-- The line list `csvText.trim().split('\n')` of `DataLoader.parseCSV`. -/
def csvLines (csvText : String) : List (List Char) :=
  splitChar '\n' (trimChars csvText.data)

/-- One line split on `','` with each cell trimmed
(`line.split(',').map(v => v.trim())`). -/
def csvCells (line : List Char) : List String :=
  (splitChar ',' line).map (fun c => String.mk (trimChars c))

/-- The trimmed header names of a payload (first line), `[]` when the
payload has fewer than two lines. -/
def parseHeaders (csvText : String) : List String :=
  match csvLines csvText with
  | l0 :: _ :: _ => csvCells l0
  | _ => []

/-- The data lines of a payload (everything after the header), `[]` when
the payload has fewer than two lines. -/
def dataLines (csvText : String) : List (List Char) :=
  match csvLines csvText with
  | _ :: l1 :: rest => l1 :: rest
  | _ => []

/-- Row-building loop of `parseCSV`:
`headers.forEach((header, index) => { row[header] = values[index] || ''; })`.
`values[index] || ''` reads `''` for a missing or empty trailing cell. -/
def parseRow (headers : List String) (line : List Char) : CsvRow :=
  let values := csvCells line
  headers.enum.foldl (fun row p => objSet row p.2 (values.getD p.1 "")) []

/-- `DataLoader.parseCSV`: fewer than two lines yields `[]`, otherwise
every data line becomes one row object. -/
def parseCSV (csvText : String) : List CsvRow :=
  match csvLines csvText with
  | l0 :: l1 :: rest => (l1 :: rest).map (parseRow (csvCells l0))
  | _ => []

/-! ## DataLoader: route performance -/

/-- The `data.map(row => ...)` step of `DataLoader.loadRoutePerformance`:
normalize one raw CSV row into a `RouteRecord`.  The display-name
fallback string interpolation renders `undefined` for a missing
`row.Route`, as JS template literals do. -/
def normalizeRouteRow (row : CsvRow) : RouteRecord :=
  { Route := cleanRouteId (rowGet row "Route")
    route_long_name :=
      match rowGet row "route_long_name" with
      | some s => if s = "" then "Route " ++ (rowGet row "Route").getD "undefined" else s
      | none => "Route " ++ (rowGet row "Route").getD "undefined"
    Avg_Delay_Min := parseNumber (rowGet row "Avg_Delay_Min")
    Delay_Count := parseNumber (rowGet row "Delay_Count")
    Total_Delay_Min := parseNumber (rowGet row "Total_Delay_Min")
    On_Time_Percentage := parseNumber (rowGet row "On_Time_Percentage")
    Delay_Frequency := parseNumber (rowGet row "Delay_Frequency") }

/-- The validity filter of `loadRoutePerformance`:
`route.Avg_Delay_Min !== null && route.Delay_Count !== null && route.Route`
(a string is truthy iff non-empty). -/
def isValidRoute (r : RouteRecord) : Bool :=
  r.Avg_Delay_Min.isSome && r.Delay_Count.isSome && r.Route ≠ ""

/-- The `map`-then-`filter` normalization of `loadRoutePerformance`. -/
def processRoutePerformance (rows : List CsvRow) : List RouteRecord :=
  (rows.map normalizeRouteRow).filter isValidRoute

/-- `DataLoader.getSampleRoutePerformance`. -/
def getSampleRoutePerformance : List RouteRecord :=
  [ { Route := "501", route_long_name := "Queen Street", Avg_Delay_Min := some (85/10),
      Delay_Count := some 245, Total_Delay_Min := some (20825/10),
      On_Time_Percentage := some (723/10), Delay_Frequency := some (21/10) },
    { Route := "504", route_long_name := "King Street", Avg_Delay_Min := some (123/10),
      Delay_Count := some 189, Total_Delay_Min := some (23247/10),
      On_Time_Percentage := some (658/10), Delay_Frequency := some (34/10) },
    { Route := "505", route_long_name := "Dundas Street", Avg_Delay_Min := some (67/10),
      Delay_Count := some 156, Total_Delay_Min := some (10452/10),
      On_Time_Percentage := some (812/10), Delay_Frequency := some (18/10) },
    { Route := "506", route_long_name := "Carlton Street", Avg_Delay_Min := some (152/10),
      Delay_Count := some 278, Total_Delay_Min := some (42256/10),
      On_Time_Percentage := some (589/10), Delay_Frequency := some (42/10) },
    { Route := "509", route_long_name := "Harbourfront", Avg_Delay_Min := some (43/10),
      Delay_Count := some 98, Total_Delay_Min := some (4214/10),
      On_Time_Percentage := some (887/10), Delay_Frequency := some (12/10) },
    { Route := "510", route_long_name := "Spadina Avenue", Avg_Delay_Min := some (98/10),
      Delay_Count := some 167, Total_Delay_Min := some (16366/10),
      On_Time_Percentage := some (745/10), Delay_Frequency := some (25/10) } ]

/-- `DataLoader.loadRoutePerformance` at its load boundary: `none` = the
fetch (or anything inside the `try`) threw; empty raw data, and an empty
processed collection, both fall back to the sample routes. -/
def loadRoutePerformance (outcome : Option (List CsvRow)) : List RouteRecord :=
  match outcome with
  | none => getSampleRoutePerformance
  | some rows =>
    if rows = [] then getSampleRoutePerformance
    else
      let processed := processRoutePerformance rows
      if processed = [] then getSampleRoutePerformance else processed

/-! ## DataLoader: route geometries -/

/-- A processed geometry map: route id to coordinate list, in key order.
(JS object keys are unique; `processGeometries` below can in principle
produce a duplicate cleaned id from distinct raw keys, in which case JS
would overwrite — no claim touches that corner.) -/
abbrev GeoMap := List (String × List (List ℚ))

/-- The coordinate filter of `loadRouteGeometries`:
`coord && Array.isArray(coord) && coord.length === 2 && isValidCoordinate(...)`. -/
def isValidCoordPair (coord : List ℚ) : Bool :=
  coord.length = 2 &&
    (match coord with
     | [lat, lng] => isValidCoordinate lat lng
     | _ => false)

/-- The per-entry body of `loadRouteGeometries`' `for` loop.  The raw
value is `Option`-wrapped: `none` stands for `null`/non-array entries
(the `else { emptyCount++ }` branch). -/
def processGeometryEntry (entry : String × Option (List (List ℚ))) :
    Option (String × List (List ℚ)) :=
  match entry.2 with
  | some coords =>
    if coords = [] then none
    else
      let validCoords := coords.filter isValidCoordPair
      if validCoords = [] then none
      else some (cleanRouteId (some entry.1), validCoords)
  | none => none

/-- The success-path processing of `DataLoader.loadRouteGeometries`. -/
def processGeometries (data : List (String × Option (List (List ℚ)))) : GeoMap :=
  data.filterMap processGeometryEntry

/-- `DataLoader.generateRouteCoordinates`.  `Math.cos`, `Math.sin`,
`Math.PI` and `Math.random` are floating-point/transcendental/
nondeterministic and cannot be computed in `ℚ`; they enter as oracle
parameters (`c`, `s`, `pi`, and `rng` indexed by call order), leaving the
shape of the computation — the angle formula, the two channel formulas,
and the point count — faithful to the source. -/
def generateRouteCoordinates (c s : ℚ → ℚ) (rng : ℕ → ℚ) (pi : ℚ)
    (center : ℚ × ℚ) (radius : ℚ) (pointCount : ℕ) : List (List ℚ) :=
  (List.range pointCount).map (fun (i : ℕ) =>
    let angle := ((i : ℚ) / (pointCount : ℚ)) * pi * 2
    let lat := center.1 + c angle * radius * (1/2 + rng (2 * i) * (1/2))
    let lng := center.2 + s angle * radius * (1/2 + rng (2 * i + 1) * (1/2))
    [lat, lng])

/-- `DataLoader.getSampleRouteGeometries` (`rng n` is the random stream
used for the `n`-th listed route). -/
def getSampleRouteGeometries (c s : ℚ → ℚ) (rng : ℕ → ℕ → ℚ) (pi : ℚ) : GeoMap :=
  let torontoCenter : ℚ × ℚ := (436532/10000, -793832/10000)
  [ ("501", generateRouteCoordinates c s (rng 0) pi torontoCenter (2/100) 15),
    ("504", generateRouteCoordinates c s (rng 1) pi torontoCenter (25/1000) 20),
    ("505", generateRouteCoordinates c s (rng 2) pi torontoCenter (18/1000) 12),
    ("506", generateRouteCoordinates c s (rng 3) pi torontoCenter (22/1000) 18),
    ("509", generateRouteCoordinates c s (rng 4) pi torontoCenter (15/1000) 10),
    ("510", generateRouteCoordinates c s (rng 5) pi torontoCenter (2/100) 16) ]

/-- `DataLoader.loadRouteGeometries` at its load boundary: only a thrown
fetch/parse (`none`) falls back to the sample geometries (passed in,
because their generation is randomized); a successfully parsed payload is
processed even when nothing in it survives validation. -/
def loadRouteGeometries (sampleGeometries : GeoMap)
    (outcome : Option (List (String × Option (List (List ℚ))))) : GeoMap :=
  match outcome with
  | none => sampleGeometries
  | some data => processGeometries data

/-! ## DataLoader: location analysis -/

/-- A processed location record (`DataLoader.loadLocationAnalysis`). -/
structure LocationRecord where
  location_id : Option String
  location_name : Option String
  total_delays : Option ℚ
  avg_delay_min : Option ℚ
  latitude : ℚ
  longitude : ℚ
  route_count : Option ℚ
  peak_hours : List ℚ
deriving DecidableEq, Repr

/-- The per-row body of `loadLocationAnalysis`' `map`.  `jsonParse` is the
`JSON.parse` applied to the `peak_hours` cell (an embedded JSON array of
numbers); `none` models a `JSON.parse` throw, which escapes the `map` and
is caught by the outer `catch`.  The result is `none` exactly when that
throw happens. -/
def normalizeLocationRow (jsonParse : String → Option (List ℚ)) (row : CsvRow) :
    Option (Option LocationRecord) :=
  let lat := parseNumber (rowGet row "latitude")
  let lng := parseNumber (rowGet row "longitude")
  let peakRaw := rowGet row "peak_hours"
  let peak : Option (List ℚ) :=
    match peakRaw with
    | some s => if s = "" then some [] else jsonParse s
    | none => some []
  match peak with
  | none => none
  | some ph =>
    some (match lat, lng with
      | some la, some lo =>
        if isValidCoordinate la lo then
          some { location_id := rowGet row "location_id"
                 location_name := rowGet row "location_name"
                 total_delays := parseNumber (rowGet row "total_delays")
                 avg_delay_min := parseNumber (rowGet row "avg_delay_min")
                 latitude := la, longitude := lo
                 route_count := parseNumber (rowGet row "route_count")
                 peak_hours := ph }
        else none
      | _, _ => none)

/-- The `map`-then-`filter` of `loadLocationAnalysis`; `none` when a
`peak_hours` cell made `JSON.parse` throw. -/
def processLocationAnalysis (jsonParse : String → Option (List ℚ))
    (rows : List CsvRow) : Option (List LocationRecord) :=
  (rows.mapM (normalizeLocationRow jsonParse)).map (List.filterMap id)

/-- `DataLoader.loadLocationAnalysis` at its load boundary: any throw
(failed fetch, or a `JSON.parse` throw inside the processing) resolves to
the empty list. -/
def loadLocationAnalysis (jsonParse : String → Option (List ℚ))
    (outcome : Option (List CsvRow)) : List LocationRecord :=
  match outcome with
  | none => []
  | some rows =>
    match processLocationAnalysis jsonParse rows with
    | none => []
    | some l => l

/-! ## DataLoader: summary statistics -/

/-- The statistics record assembled by `loadSummaryStatistics` /
`getDefaultStatistics`. -/
structure SummaryStats where
  total_delays : ℚ
  avg_delay_min : ℚ
  total_routes : ℚ
  coverage_percentage : ℚ
  data_points : ℚ
  time_period : String
  updated_at : String
  peak_delay_hour : String
  most_delayed_route : String
deriving DecidableEq, Repr

/-- `DataLoader.getDefaultStatistics`.  `updated_at` is
`new Date().toISOString()`, a wall-clock read, passed in as `now`. -/
def getDefaultStatistics (now : String) : SummaryStats :=
  { total_delays := 12478
    avg_delay_min := 87/10
    total_routes := 156
    coverage_percentage := 875/10
    data_points := 456892
    time_period := "Last 30 days"
    updated_at := now
    peak_delay_hour := "08:00"
    most_delayed_route := "506 - Carlton Street" }

/-- The raw `summary_statistics.json` object, fields optional (`none` =
absent). -/
structure RawStats where
  total_delays : Option ℚ
  avg_delay_minutes : Option ℚ
  unique_routes : Option ℚ
  coverage_percentage : Option ℚ
  data_points : Option ℚ
  time_period : Option String
  updated_at : Option String
  peak_delay_hour : Option String
  most_delayed_route : Option String
deriving DecidableEq, Repr

/-- JS `x || default` for an optional string field (absent and `''` are
both falsy). -/
def strOrD (o : Option String) (d : String) : String :=
  match o with
  | some s => if s = "" then d else s
  | none => d

/-- JS `x || 0` for an optional numeric field (`0` maps to `0` either
way). -/
def numOr0 (o : Option ℚ) : ℚ := o.getD 0

/-- `DataLoader.loadSummaryStatistics` at its load boundary: a thrown
fetch/parse falls back to `getDefaultStatistics`; a parsed object is
defaulted field by field. -/
def loadSummaryStatistics (now : String) (outcome : Option RawStats) : SummaryStats :=
  match outcome with
  | none => getDefaultStatistics now
  | some data =>
    { total_delays := numOr0 data.total_delays
      avg_delay_min := numOr0 data.avg_delay_minutes
      total_routes := numOr0 data.unique_routes
      coverage_percentage := numOr0 data.coverage_percentage
      data_points := numOr0 data.data_points
      time_period := strOrD data.time_period "Last 30 days"
      updated_at := strOrD data.updated_at now
      peak_delay_hour := strOrD data.peak_delay_hour "08:00"
      most_delayed_route := strOrD data.most_delayed_route "Unknown" }

/-! ## App: route filtering (src/js/app.js, `TTCVisualizationApp.filterRoutes`) -/

/-- The search predicate of `filterRoutes`:
`route.Route.toString().toLowerCase().includes(query) ||
 (route.route_long_name && route.route_long_name.toLowerCase().includes(query))`
with `query` already lowercased. -/
def searchMatch (query : String) (r : RouteRecord) : Bool :=
  jsIncludes (jsToLower r.Route) query ||
    (r.route_long_name ≠ "" && jsIncludes (jsToLower r.route_long_name) query)

/-- `TTCVisualizationApp.filterRoutes`, with the relevant pieces of
`this.state` (`filters.delayThreshold`, `searchQuery`) as arguments.  The
`routeType` filter of the source is an empty branch ("would need route
type data") and has no effect.  `route.Avg_Delay_Min >= threshold` on a
`null` delay coerces `null` to `0` (`numD`). -/
def filterRoutes (routes : List RouteRecord) (delayThreshold : ℚ)
    (searchQuery : String) : List RouteRecord :=
  let filtered := routes.filter (fun r => delayThreshold ≤ numD r.Avg_Delay_Min)
  if searchQuery ≠ "" then
    let query := jsToLower searchQuery
    filtered.filter (searchMatch query)
  else filtered

/-! ## MapVisualizer: derived scales and the frequency line weight -/

/-- The delay breakpoints of `MapVisualizer.initializeColorScales`:
`[0, maxDelay * 0.3, maxDelay * 0.6, maxDelay]`. -/
def delayBreaks (routes : List RouteRecord) : List ℚ :=
  let maxDelay := mathMax (routes.map (fun r => numD r.Avg_Delay_Min))
  [0, maxDelay * (3/10), maxDelay * (6/10), maxDelay]

/-- The `'delay'` colour scale of `initializeColorScales`. -/
def delayColorScale (routes : List RouteRecord) (value : ℚ) : Option String :=
  createColorScale (delayBreaks routes) routeDelayColors value

/-- The frequency breakpoints of `initializeColorScales`:
`[0, maxFrequency * 0.3, maxFrequency * 0.6, maxFrequency]`. -/
def frequencyBreaks (routes : List RouteRecord) : List ℚ :=
  let maxFrequency := mathMax (routes.map (fun r => numD r.Delay_Count))
  [0, maxFrequency * (3/10), maxFrequency * (6/10), maxFrequency]

/-- The `'frequency'` colour scale of `initializeColorScales`. -/
def frequencyColorScale (routes : List RouteRecord) (value : ℚ) : Option String :=
  createColorScale (frequencyBreaks routes) frequencyColors value

/-- The line-weight computation of `MapVisualizer.showDelayFrequency` for
one displayed route:
`weight = minWeight + ((delayCount - minFrequency) / (maxFrequency - minFrequency)) * (maxWeight - minWeight)`
where the min/max run over the displayed collection.  When every
displayed route has the same `Delay_Count` the divisor is `0` and JS
computes `0/0 = NaN`, so the weight is `NaN`: that is the `none` case. -/
def frequencyWeight (routesToShow : List RouteRecord) (r : RouteRecord) : Option ℚ :=
  let counts := routesToShow.map (fun x => numD x.Delay_Count)
  let maxFrequency := mathMax counts
  let minFrequency := mathMin counts
  let weightRange := frequencyMaxWeight - frequencyMinWeight
  (jsDiv (numD r.Delay_Count - minFrequency) (maxFrequency - minFrequency)).map
    (fun frequencyRatio => frequencyMinWeight + frequencyRatio * weightRange)

/-! ## Aggregator and date filtering (modelled from the spec) -/

/-- Modelled from the spec: the raw **DelayEvent** ingestion record of
§3/§4.3 is consumed by the Aggregator, which is not part of src/ (src/
only holds the dashboard's loaders and visualizers).  A delay magnitude
may live under either of two field names (`minDelay` examined first);
`dateVal` is the already-parsed record date (`none` = dateless, §4.2's
permissive policy); `timeText` is the time-of-day text field. -/
structure DelayEvent where
  minDelay : Option ℚ
  gapDelay : Option ℚ
  route : String
  vehicle : String
  location : String
  timeText : String
  dateVal : Option ℤ
deriving DecidableEq, Repr

/-- Modelled from the spec (§4.3 step 3): the positive delay magnitude of
a record, "checked across two possible field names, first non-zero
wins". -/
def positiveDelay (e : DelayEvent) : Option ℚ :=
  match e.minDelay with
  | some d => if 0 < d then some d else
      match e.gapDelay with
      | some g => if 0 < g then some g else none
      | none => none
  | none =>
    match e.gapDelay with
    | some g => if 0 < g then some g else none
    | none => none

/-- Round to 2 decimal places (§4.3 step 4). -/
def round2 (q : ℚ) : ℚ := (jsRound (q * 100) : ℚ) / 100

/-- Distinct non-empty values, set cardinality (§4.3 step 5). -/
def distinctCount (l : List String) : ℕ := ((l.filter (· ≠ "")).dedup).length

/-- First-occurrence deduplication, accumulating the values already
seen. -/
def firstDedupGo (seen : List ℕ) : List ℕ → List ℕ
  | [] => []
  | x :: xs =>
    if x ∈ seen then firstDedupGo seen xs else x :: firstDedupGo (x :: seen) xs

/-- First-occurrence deduplication (JS object keys in insertion order;
used for the peak-hour max scan, §4.3 step 8). -/
def firstDedup (l : List ℕ) : List ℕ := firstDedupGo [] l

/-- Modelled from the spec (§4.3 step 8): "regex-style leading `HH:`
extraction" of an hour from a time-of-day text. -/
def leadHour (s : String) : Option ℕ :=
  match s.data with
  | d1 :: d2 :: ':' :: _ =>
    if d1.isDigit ∧ d2.isDigit then
      some (10 * (d1.toNat - '0'.toNat) + (d2.toNat - '0'.toNat))
    else none
  | d1 :: ':' :: _ => if d1.isDigit then some (d1.toNat - '0'.toNat) else none
  | _ => none

/-- Two-digit, zero-padded rendering of an hour. -/
def pad2 (n : ℕ) : String :=
  if n < 10 then "0" ++ toString n else toString n

/-- Modelled from the spec (§4.3 step 8): bucket extracted hours, pick
the hour with the highest count, ties broken by first-encountered during
the max scan; `"08:00"` when no time data. -/
def peakHour (records : List DelayEvent) : String :=
  let hours := records.filterMap (fun e => leadHour e.timeText)
  match firstDedup hours with
  | [] => "08:00"
  | h0 :: hs =>
    let best := hs.foldl
      (fun best h => if hours.count best < hours.count h then h else best) h0
    pad2 best ++ ":00"

/-- Modelled from the spec: `computeStatistics` (§4.3), the Aggregator's
entry point, is not part of src/.  Step 1 — the branch claim C2 is about
— returns the fixed default snapshot, which *is* in src/
(`DataLoader.getDefaultStatistics`).  The non-empty branch renders steps
2-8 into the `SummaryStats` record shape used by src/ (the spec's extra
date-range/data-quality sub-records have no src/ counterpart and are not
carried). -/
def computeStatistics (now : String) (records : List DelayEvent) : SummaryStats :=
  if records = [] then getDefaultStatistics now
  else
    let positives := records.filterMap positiveDelay
    let distinctRoutes := distinctCount (records.map (·.route))
    { total_delays := (records.length : ℚ)
      avg_delay_min :=
        if positives = [] then 0
        else round2 (positives.sum / (positives.length : ℚ))
      total_routes := (distinctRoutes : ℚ)
      coverage_percentage := (jsRound ((distinctRoutes : ℚ) / 150 * 100) : ℚ)
      data_points := (records.length : ℚ)
      time_period := "Last 30 days"
      updated_at := now
      peak_delay_hour := peakHour records
      most_delayed_route := "Unknown" }

/-- Modelled from the spec (§4.4): the last instant of the calendar day
of an epoch-millisecond timestamp. -/
def endOfDay (e : ℤ) : ℤ := e - e % 86400000 + 86399999

/-- Modelled from the spec: `filterByDateRange` (§4.4) is not part of
src/.  If either bound is absent all records are returned unchanged;
a dateless record is kept; otherwise the record's date must fall within
`[start, endOfDay(end)]`, both ends inclusive. -/
def filterByDateRange (records : List DelayEvent) (start stop : Option ℤ) :
    List DelayEvent :=
  match start, stop with
  | some s, some e =>
    records.filter (fun r =>
      match r.dateVal with
      | none => true
      | some d => decide (s ≤ d) && decide (d ≤ endOfDay e))
  | _, _ => records


/-! ## Concrete data used by the claim checks -/

/-- The string `"#" + hex(rn) + hex(gn) + hex(bn)"` for three bytes: the
shape of every well-formed lowercase colour, and of `interpolateColor`'s
output on in-range channels. -/
def byteColorString (rn gn bn : ℕ) : String :=
  String.mk ['#', hexChar (rn / 16), hexChar (rn % 16), hexChar (gn / 16),
    hexChar (gn % 16), hexChar (bn / 16), hexChar (bn % 16)]

/-- A route record with `Delay_Count` 245. -/
def c3routeA : RouteRecord :=
  { Route := "501", route_long_name := "Queen Street", Avg_Delay_Min := some 8,
    Delay_Count := some 245, Total_Delay_Min := none, On_Time_Percentage := none,
    Delay_Frequency := none }

/-- A second route record with the same `Delay_Count` 245. -/
def c3routeB : RouteRecord :=
  { Route := "504", route_long_name := "King Street", Avg_Delay_Min := some 12,
    Delay_Count := some 245, Total_Delay_Min := none, On_Time_Percentage := none,
    Delay_Frequency := none }

/-- A route record with a different `Delay_Count` 345. -/
def c3routeC : RouteRecord :=
  { Route := "505", route_long_name := "Dundas Street", Avg_Delay_Min := some 6,
    Delay_Count := some 345, Total_Delay_Min := none, On_Time_Percentage := none,
    Delay_Frequency := none }

/-- A displayed collection in which every route has the same
`Delay_Count`. -/
def c3Routes : List RouteRecord := [c3routeA, c3routeB]

/-- A displayed collection with two distinct `Delay_Count` values. -/
def c3wRoutes : List RouteRecord := [c3routeA, c3routeC]

/-- A raw CSV row with a non-empty route id and parseable numbers. -/
def c4row : CsvRow := [("Route", "501"), ("Avg_Delay_Min", "8.5"), ("Delay_Count", "245")]

/-- A geometry payload whose route has one valid and one invalid
coordinate pair (latitude 100 is out of range). -/
def c5data : List (String × Option (List (List ℚ))) := [("501", some [[43, -79], [100, 0]])]

/-- Constant-zero oracle for `Math.cos`/`Math.sin`. -/
def zeroFnQ : ℚ → ℚ := fun _ => 0

/-- Constant-zero oracle for the per-route `Math.random` streams. -/
def zeroRng2 : ℕ → ℕ → ℚ := fun _ _ => 0

/-- The sample geometries under the zero oracles: six routes, each with
its fixed point count. -/
def c8sample : GeoMap := getSampleRouteGeometries zeroFnQ zeroFnQ zeroRng2 0

/-- A geometry payload that parses but contains no usable coordinate
pair (latitude 200 is out of range). -/
def c8payload : List (String × Option (List (List ℚ))) := [("501", some [[200, 0]])]

/-! ## Helper lemmas -/

theorem natToHexRevAux_congr :
    ∀ f1 f2 n, n < f1 → n < f2 → natToHexRevAux f1 n = natToHexRevAux f2 n := by
  intro f1
  induction f1 with
  | zero => intro f2 n h1 _; omega
  | succ f1' ih =>
    intro f2 n h1 h2
    cases f2 with
    | zero => omega
    | succ f2' =>
      simp only [natToHexRevAux]
      by_cases hn : n = 0
      · simp [hn]
      · simp only [hn, if_false]
        have hd : n / 16 < n := Nat.div_lt_self (Nat.pos_of_ne_zero hn) (by omega)
        rw [ih f2' (n / 16) (by omega) (by omega)]

theorem natToHexRev_eq (n : ℕ) (h : n ≠ 0) :
    natToHexRev n = hexChar (n % 16) :: natToHexRev (n / 16) := by
  show natToHexRevAux (n + 1) n = _
  simp only [natToHexRevAux, h, if_false]
  rw [natToHexRevAux_congr n (n / 16 + 1) (n / 16)
    (by have := Nat.div_lt_self (Nat.pos_of_ne_zero h) (by omega : 1 < 16); omega)
    (by omega)]
  rfl

theorem natToHexRev_rgb (rn gn bn : ℕ) (hr : rn < 256) (hg : gn < 256) (hb : bn < 256) :
    natToHexRev (16777216 + rn * 65536 + gn * 256 + bn) =
      [hexChar (bn % 16), hexChar (bn / 16), hexChar (gn % 16), hexChar (gn / 16),
       hexChar (rn % 16), hexChar (rn / 16), hexChar 1] := by
  rw [natToHexRev_eq _ (by omega)]
  rw [show (16777216 + rn * 65536 + gn * 256 + bn) % 16 = bn % 16 by omega]
  rw [show (16777216 + rn * 65536 + gn * 256 + bn) / 16
      = 1048576 + rn * 4096 + gn * 16 + bn / 16 by omega]
  rw [natToHexRev_eq _ (by omega)]
  rw [show (1048576 + rn * 4096 + gn * 16 + bn / 16) % 16 = bn / 16 by omega]
  rw [show (1048576 + rn * 4096 + gn * 16 + bn / 16) / 16
      = 65536 + rn * 256 + gn by omega]
  rw [natToHexRev_eq _ (by omega)]
  rw [show (65536 + rn * 256 + gn) % 16 = gn % 16 by omega]
  rw [show (65536 + rn * 256 + gn) / 16 = 4096 + rn * 16 + gn / 16 by omega]
  rw [natToHexRev_eq _ (by omega)]
  rw [show (4096 + rn * 16 + gn / 16) % 16 = gn / 16 by omega]
  rw [show (4096 + rn * 16 + gn / 16) / 16 = 256 + rn by omega]
  rw [natToHexRev_eq _ (by omega)]
  rw [show (256 + rn) % 16 = rn % 16 by omega]
  rw [show (256 + rn) / 16 = 16 + rn / 16 by omega]
  rw [natToHexRev_eq _ (by omega)]
  rw [show (16 + rn / 16) % 16 = rn / 16 by omega]
  rw [show (16 + rn / 16) / 16 = 1 by omega]
  rw [natToHexRev_eq _ (by omega)]
  rfl

theorem hexDigit?_hexChar (a : ℕ) (h : a < 16) : hexDigit? (hexChar a) = some a := by
  interval_cases a <;> rfl

theorem jsParseHex_pair (a b : ℕ) (ha : a < 16) (hb : b < 16) :
    jsParseHex [hexChar a, hexChar b] = some (16 * a + b) := by
  simp [jsParseHex, jsParseHexGo, hexDigit?_hexChar a ha, hexDigit?_hexChar b hb]

theorem toInt32_eq_self (n : ℤ) (h1 : -(2 ^ 31) ≤ n) (h2 : n < 2 ^ 31) :
    toInt32 n = n := by
  unfold toInt32; omega

theorem jsShl_small (a : ℤ) (h1 : 0 ≤ a) (h2 : a ≤ 255) :
    jsShl a 16 = a * 65536 ∧ jsShl a 8 = a * 256 := by
  unfold jsShl
  rw [toInt32_eq_self a (by omega) (by omega)]
  constructor
  · rw [show a * 2 ^ 16 = a * 65536 by ring]
    exact toInt32_eq_self _ (by omega) (by omega)
  · rw [show a * 2 ^ 8 = a * 256 by ring]
    exact toInt32_eq_self _ (by omega) (by omega)

theorem jsShl_one_24 : jsShl 1 24 = 16777216 := by
  unfold jsShl toInt32; decide

/-- How `interpolateColor`'s tail formats three in-range channel values. -/
theorem hexFormat_channels (r g b : ℤ) (hr : 0 ≤ r) (hr' : r ≤ 255)
    (hg : 0 ≤ g) (hg' : g ≤ 255) (hb : 0 ≤ b) (hb' : b ≤ 255) :
    String.mk ('#' :: (jsHexString (jsShl 1 24 + jsShl r 16 + jsShl g 8 + b)).data.drop 1)
      = byteColorString r.toNat g.toNat b.toNat := by
  rw [jsShl_one_24, (jsShl_small r hr hr').1, (jsShl_small g hg hg').2]
  have hsum : (16777216 : ℤ) + r * 65536 + g * 256 + b
      = ((16777216 + r.toNat * 65536 + g.toNat * 256 + b.toNat : ℕ) : ℤ) := by
    push_cast; omega
  rw [hsum]
  rw [show jsHexString ((16777216 + r.toNat * 65536 + g.toNat * 256 + b.toNat : ℕ) : ℤ)
      = jsHexStringNat (16777216 + r.toNat * 65536 + g.toNat * 256 + b.toNat) by
    unfold jsHexString
    rw [if_neg (by omega), Int.toNat_natCast]]
  rw [show jsHexStringNat (16777216 + r.toNat * 65536 + g.toNat * 256 + b.toNat)
      = String.mk (natToHexRev (16777216 + r.toNat * 65536 + g.toNat * 256 + b.toNat)).reverse by
    unfold jsHexStringNat
    rw [if_neg (by omega)]]
  rw [natToHexRev_rgb r.toNat g.toNat b.toNat (by omega) (by omega) (by omega)]
  rfl

theorem jsRound_intCast (n : ℤ) : jsRound (n : ℚ) = n := by
  unfold jsRound
  rw [show ((n : ℚ) + 1/2) = (n : ℚ) + (1/2 : ℚ) by ring, Int.floor_int_add]
  norm_num

theorem jsRound_natCast (n : ℕ) : jsRound (n : ℚ) = n := by
  have := jsRound_intCast (n : ℤ)
  rwa [show (((n : ℤ) : ℚ)) = (n : ℚ) by push_cast; ring] at this

theorem jsRound_nonneg (q : ℚ) (h0 : 0 ≤ q) : 0 ≤ jsRound q := by
  unfold jsRound
  rw [Int.le_floor]
  push_cast
  linarith

theorem jsRound_le_255 (q : ℚ) (h1 : q ≤ 255) : jsRound q ≤ 255 := by
  unfold jsRound
  have : ⌊q + 1/2⌋ < 256 := by
    rw [Int.floor_lt]
    push_cast
    linarith

  omega

theorem channel_bounds (a b : ℕ) (ha : a < 256) (hb : b < 256) (ratio : ℚ)
    (hr0 : 0 ≤ ratio) (hr1 : ratio ≤ 1) :
    0 ≤ (a : ℚ) + ((b : ℚ) - (a : ℚ)) * ratio ∧
      (a : ℚ) + ((b : ℚ) - (a : ℚ)) * ratio ≤ 255 := by
  have ha' : (a : ℚ) ≤ 255 := by exact_mod_cast Nat.le_of_lt_succ ha
  have hb' : (b : ℚ) ≤ 255 := by exact_mod_cast Nat.le_of_lt_succ hb
  have ha0 : (0 : ℚ) ≤ (a : ℚ) := by positivity
  have hb0 : (0 : ℚ) ≤ (b : ℚ) := by positivity
  constructor <;> nlinarith

/-- Pointwise evaluation of `interpolateColor` on well-formed colours and
an in-range ratio: parse the six channel bytes, round the interpolation
of each channel, format. -/
theorem interpolateColor_eval (r1 g1 b1 r2 g2 b2 : ℕ)
    (h1 : r1 < 256) (h2 : g1 < 256) (h3 : b1 < 256)
    (h4 : r2 < 256) (h5 : g2 < 256) (h6 : b2 < 256) (ratio : ℚ)
    (hr0 : 0 ≤ ratio) (hr1 : ratio ≤ 1) :
    interpolateColor (byteColorString r1 g1 b1) (byteColorString r2 g2 b2) ratio =
      some (byteColorString
        (jsRound ((r1 : ℚ) + ((r2 : ℚ) - (r1 : ℚ)) * ratio)).toNat
        (jsRound ((g1 : ℚ) + ((g2 : ℚ) - (g1 : ℚ)) * ratio)).toNat
        (jsRound ((b1 : ℚ) + ((b2 : ℚ) - (b1 : ℚ)) * ratio)).toNat) := by
  unfold interpolateColor byteColorString
  simp only [removeFirstHash, if_pos, List.take_succ_cons, List.take_zero,
    List.drop_succ_cons, List.drop_zero]
  rw [jsParseHex_pair (r1 / 16) (r1 % 16) (by omega) (by omega),
    jsParseHex_pair (g1 / 16) (g1 % 16) (by omega) (by omega),
    jsParseHex_pair (b1 / 16) (b1 % 16) (by omega) (by omega),
    jsParseHex_pair (r2 / 16) (r2 % 16) (by omega) (by omega),
    jsParseHex_pair (g2 / 16) (g2 % 16) (by omega) (by omega),
    jsParseHex_pair (b2 / 16) (b2 % 16) (by omega) (by omega),
    Nat.div_add_mod r1 16, Nat.div_add_mod g1 16, Nat.div_add_mod b1 16,
    Nat.div_add_mod r2 16, Nat.div_add_mod g2 16, Nat.div_add_mod b2 16]
  have cr := channel_bounds r1 r2 h1 h4 ratio hr0 hr1
  have cg := channel_bounds g1 g2 h2 h5 ratio hr0 hr1
  have cb := channel_bounds b1 b2 h3 h6 ratio hr0 hr1
  have hfmt := hexFormat_channels
    (jsRound ((r1 : ℚ) + ((r2 : ℚ) - (r1 : ℚ)) * ratio))
    (jsRound ((g1 : ℚ) + ((g2 : ℚ) - (g1 : ℚ)) * ratio))
    (jsRound ((b1 : ℚ) + ((b2 : ℚ) - (b1 : ℚ)) * ratio))
    (jsRound_nonneg _ cr.1) (jsRound_le_255 _ cr.2)
    (jsRound_nonneg _ cg.1) (jsRound_le_255 _ cg.2)
    (jsRound_nonneg _ cb.1) (jsRound_le_255 _ cb.2)
  simp only [byteColorString] at hfmt
  exact congrArg some hfmt

theorem foldl_max_bounds (l : List ℚ) :
    ∀ a : ℚ, a ≤ l.foldl max a ∧ ∀ x ∈ l, x ≤ l.foldl max a := by
  induction l with
  | nil => intro a; exact ⟨le_rfl, by simp⟩
  | cons y ys ih =>
    intro a
    refine ⟨le_trans (le_max_left a y) (ih (max a y)).1, ?_⟩
    intro x hx
    rcases List.mem_cons.mp hx with rfl | hx'
    · exact le_trans (le_max_right a x) (ih (max a x)).1
    · exact (ih (max a y)).2 x hx'

theorem foldl_min_bounds (l : List ℚ) :
    ∀ a : ℚ, l.foldl min a ≤ a ∧ ∀ x ∈ l, l.foldl min a ≤ x := by
  induction l with
  | nil => intro a; exact ⟨le_rfl, by simp⟩
  | cons y ys ih =>
    intro a
    refine ⟨le_trans (ih (min a y)).1 (min_le_left a y), ?_⟩
    intro x hx
    rcases List.mem_cons.mp hx with rfl | hx'
    · exact le_trans (ih (min a x)).1 (min_le_right a x)
    · exact (ih (min a y)).2 x hx'

theorem mem_le_mathMax (l : List ℚ) (x : ℚ) (hx : x ∈ l) : x ≤ mathMax l := by
  cases l with
  | nil => cases hx
  | cons y ys =>
    rcases List.mem_cons.mp hx with rfl | hx'
    · exact (foldl_max_bounds ys x).1
    · exact (foldl_max_bounds ys y).2 x hx'

theorem mathMin_le_mem (l : List ℚ) (x : ℚ) (hx : x ∈ l) : mathMin l ≤ x := by
  cases l with
  | nil => cases hx
  | cons y ys =>
    rcases List.mem_cons.mp hx with rfl | hx'
    · exact (foldl_min_bounds ys x).1
    · exact (foldl_min_bounds ys y).2 x hx'

theorem objSet_fresh (row : CsvRow) (k : String) (v : String)
    (h : ∀ p ∈ row, p.1 ≠ k) : objSet row k v = row ++ [(k, v)] := by
  induction row with
  | nil => rfl
  | cons p rest ih =>
    unfold objSet
    rw [if_neg (h p (List.mem_cons_self p rest))]
    rw [ih (fun q hq => h q (List.mem_cons_of_mem p hq))]
    rfl

theorem parseRow_fold (values : List String) :
    ∀ (headers : List String) (n : ℕ) (acc : CsvRow), headers.Nodup →
      (∀ h ∈ headers, ∀ p ∈ acc, p.1 ≠ h) →
      List.foldl (fun row p => objSet row p.2 (values.getD p.1 ""))
          acc (headers.enumFrom n)
        = acc ++ (headers.enumFrom n).map (fun p => (p.2, values.getD p.1 "")) := by
  intro headers
  induction headers with
  | nil => intro n acc _ _; simp
  | cons h hs ih =>
    intro n acc hnd hfresh
    rw [List.enumFrom_cons]
    simp only [List.foldl_cons, List.map_cons]
    rw [objSet_fresh acc h (values.getD n "")
      (hfresh h (List.mem_cons_self h hs))]
    rw [ih (n + 1) (acc ++ [(h, values.getD n "")]) (List.Nodup.of_cons hnd) ?_]
    · simp
    · intro h' hh' p hp
      rcases List.mem_append.mp hp with hp' | hp'
      · exact hfresh h' (List.mem_cons_of_mem h hh') p hp'
      · rcases List.mem_singleton.mp hp' with rfl
        intro hcontra
        simp only at hcontra
        rw [← hcontra] at hh'
        exact (List.nodup_cons.mp hnd).1 hh'

/-- With pairwise-distinct headers the row-building loop of `parseCSV`
produces exactly one key per header column, positionally zipped against
the cells, missing cells backfilled with the empty string. -/
theorem parseRow_nodup (headers : List String) (line : List Char)
    (hnd : headers.Nodup) :
    parseRow headers line =
      headers.enum.map (fun p => (p.2, (csvCells line).getD p.1 "")) := by
  unfold parseRow
  rw [show headers.enum = headers.enumFrom 0 from rfl]
  rw [parseRow_fold (csvCells line) headers 0 [] hnd (by simp)]
  rfl

theorem delayBreaks_sample :
    delayBreaks getSampleRoutePerformance = [0, 114/25, 228/25, 76/5] := by
  simp [delayBreaks, getSampleRoutePerformance, mathMax, numD, max_def]
  norm_num

theorem delayScale_sample_at_43 :
    delayColorScale getSampleRoutePerformance (43/10) = some "#e8a012" := by
  unfold delayColorScale
  rw [delayBreaks_sample]
  unfold createColorScale
  simp only [routeDelayColors, List.getLastD]
  rw [if_neg (by norm_num), if_neg (by norm_num)]
  unfold findSegment
  rw [if_pos (by constructor <;> norm_num)]
  unfold jsDiv
  rw [if_neg (by norm_num)]
  rw [show ((43/10 : ℚ) - 0) / ((114/25 : ℚ) - 0) = 215/228 by norm_num]
  rw [show ("#10b981" : String) = byteColorString 16 185 129 by decide]
  dsimp only
  rw [show ("#f59e0b" : String) = byteColorString 245 158 11 by decide]
  rw [interpolateColor_eval 16 185 129 245 158 11 (by norm_num) (by norm_num)
    (by norm_num) (by norm_num) (by norm_num) (by norm_num) (215/228)
    (by norm_num) (by norm_num)]
  rw [show jsRound (((16:ℕ) : ℚ) + (((245:ℕ) : ℚ) - ((16:ℕ) : ℚ)) * (215/228)) = 232 by
    unfold jsRound; push_cast; norm_num [Int.floor_eq_iff]]
  rw [show jsRound (((185:ℕ) : ℚ) + (((158:ℕ) : ℚ) - ((185:ℕ) : ℚ)) * (215/228)) = 160 by
    unfold jsRound; push_cast; norm_num [Int.floor_eq_iff]]
  rw [show jsRound (((129:ℕ) : ℚ) + (((11:ℕ) : ℚ) - ((129:ℕ) : ℚ)) * (215/228)) = 18 by
    unfold jsRound; push_cast; norm_num [Int.floor_eq_iff]]
  decide

theorem delayScale_sample_at_152 :
    delayColorScale getSampleRoutePerformance (152/10) = some "#7c3aed" := by
  unfold delayColorScale
  rw [delayBreaks_sample]
  unfold createColorScale
  simp only [routeDelayColors, List.getLastD]
  rw [if_neg (by norm_num), if_pos (by norm_num)]
  decide

/-! ## Claims -/

/-- Claim C1, counterexample.  The claim says the delay colour scale
built over the six sample routes returns `colors[0]` at `4.3` (the data
minimum) and `colors[3]` at `15.2`.  It is false: `4.3` lies strictly
between the first two breakpoints `0` and `0.3 * 15.2 = 4.56`, so
`createColorScale` interpolates between `colors[0]` and `colors[1]`
(yielding `"#e8a012"`) instead of returning `colors[0] = "#10b981"`. -/
theorem delayScale_sample_claim_false :
    ¬ (delayColorScale getSampleRoutePerformance (43/10) = some "#10b981" ∧
       delayColorScale getSampleRoutePerformance (152/10) = some "#7c3aed") := by
  intro h
  exact absurd (Option.some.inj (h.1.symm.trans delayScale_sample_at_43)) (by decide)

/-- Claim C1, amended.  Over the six sample routes the breakpoints are
`[0, 4.56, 9.12, 15.2]`; at `4.3` the scale returns the
`colors[0] to colors[1]` interpolation `"#e8a012"` (`colors[0]` itself is
only returned at values at or below the first breakpoint `0`), and at
`15.2` it returns `colors[3] = "#7c3aed"`. -/
theorem delayScale_sample_values :
    delayBreaks getSampleRoutePerformance = [0, 114/25, 228/25, 76/5] ∧
    delayColorScale getSampleRoutePerformance (43/10) = some "#e8a012" ∧
    delayColorScale getSampleRoutePerformance (152/10) = some "#7c3aed" :=
  ⟨delayBreaks_sample, delayScale_sample_at_43, delayScale_sample_at_152⟩

/-- Claim C2.  On an empty record collection `computeStatistics` returns
the fixed default snapshot, whose fields carry exactly the literal
values `total_delays = 12478`, `avg_delay_minutes = 8.7` (the field the
src record calls `avg_delay_min`; `8.7 = 87/10`), `total_routes = 156`,
`coverage_percentage = 87.5 = 875/10` and `peak_delay_hour = "08:00"`. -/
theorem computeStatistics_empty_default (now : String) :
    computeStatistics now [] = getDefaultStatistics now ∧
    (getDefaultStatistics now).total_delays = 12478 ∧
    (getDefaultStatistics now).avg_delay_min = 87/10 ∧
    (getDefaultStatistics now).total_routes = 156 ∧
    (getDefaultStatistics now).coverage_percentage = 875/10 ∧
    (getDefaultStatistics now).peak_delay_hour = "08:00" :=
  ⟨rfl, rfl, rfl, rfl, rfl, rfl⟩

/-- Claim C3, counterexample.  The claim says the frequency line weight
always lies within `[minWeight, maxWeight]`, *including* when every
displayed route shares the same `Delay_Count`.  It is false there: with
all counts equal the divisor `maxFrequency - minFrequency` is `0`, JS
computes `0/0 = NaN` (modelled as `none`), and no weight in range is
produced. -/
theorem frequencyWeight_equal_counts_nan :
    c3routeA ∈ c3Routes ∧ c3Routes ≠ [] ∧
      ¬ ∃ w : ℚ, frequencyWeight c3Routes c3routeA = some w ∧
        frequencyMinWeight ≤ w ∧ w ≤ frequencyMaxWeight := by
  have hnone : frequencyWeight c3Routes c3routeA = none := by
    unfold frequencyWeight c3Routes c3routeA c3routeB
    dsimp only
    unfold jsDiv
    rw [if_pos (by unfold mathMax mathMin numD; simp)]
    rfl
  refine ⟨by simp [c3Routes], by simp [c3Routes], ?_⟩
  rintro ⟨w, hw, -⟩
  rw [hnone] at hw
  cases hw

/-- Claim C3, amended.  For every route of the displayed collection, as
long as the collection's `Delay_Count` values are not all equal (min is
different from max), the line weight is the linear map of the route's
count from `[min, max]` onto `[minWeight, maxWeight]` and lies within
that range; when min equals max the division `0/0` yields `NaN` and no
clamping exists in the code. -/
theorem frequencyWeight_in_range (routesToShow : List RouteRecord) (r : RouteRecord)
    (hr : r ∈ routesToShow)
    (hne : mathMin (routesToShow.map (fun x => numD x.Delay_Count)) ≠
      mathMax (routesToShow.map (fun x => numD x.Delay_Count))) :
    ∃ w : ℚ, frequencyWeight routesToShow r = some w ∧
      frequencyMinWeight ≤ w ∧ w ≤ frequencyMaxWeight := by
  unfold frequencyWeight
  set counts := routesToShow.map (fun x => numD x.Delay_Count) with hcounts
  have hmem : numD r.Delay_Count ∈ counts := List.mem_map_of_mem _ hr
  have hlo : mathMin counts ≤ numD r.Delay_Count := mathMin_le_mem counts _ hmem
  have hhi : numD r.Delay_Count ≤ mathMax counts := mem_le_mathMax counts _ hmem
  have hlt : mathMin counts < mathMax counts :=
    lt_of_le_of_ne (le_trans hlo hhi) hne
  have hdiff : mathMax counts - mathMin counts ≠ 0 := by
    intro h; exact absurd (by linarith : mathMax counts ≤ mathMin counts) (not_le.mpr hlt)
  dsimp only
  unfold jsDiv
  rw [if_neg hdiff]
  dsimp only [Option.map]
  refine ⟨_, rfl, ?_, ?_⟩
  · unfold frequencyMinWeight frequencyMaxWeight
    have hratio : 0 ≤ (numD r.Delay_Count - mathMin counts) / (mathMax counts - mathMin counts) :=
      div_nonneg (by linarith) (by linarith)
    linarith
  · unfold frequencyMinWeight frequencyMaxWeight
    have hratio : (numD r.Delay_Count - mathMin counts) / (mathMax counts - mathMin counts) ≤ 1 :=
      (div_le_one (by linarith)).mpr (by linarith)
    linarith

/-- Claim C3, witness: on a collection with counts 245 and 345 the route
with count 245 gets a weight inside `[3, 8]`. -/
theorem frequencyWeight_in_range_witness :
    ∃ w : ℚ, frequencyWeight c3wRoutes c3routeA = some w ∧
      frequencyMinWeight ≤ w ∧ w ≤ frequencyMaxWeight :=
  frequencyWeight_in_range c3wRoutes c3routeA (by decide) (by decide)

/-- Claim C4.  Every record surviving route-performance normalization
has a non-empty route id and present (non-`null`) `Avg_Delay_Min` and
`Delay_Count`; rows violating this are removed by the validity filter,
so no invalid record leaves the normalization stage. -/
theorem routePerformance_invariant (rows : List CsvRow) (r : RouteRecord)
    (hr : r ∈ processRoutePerformance rows) :
    r.Route ≠ "" ∧ r.Avg_Delay_Min ≠ none ∧ r.Delay_Count ≠ none := by
  unfold processRoutePerformance at hr
  have hv := (List.mem_filter.mp hr).2
  unfold isValidRoute at hv
  simp only [Bool.and_eq_true, decide_eq_true_eq, ne_eq] at hv
  refine ⟨hv.2, ?_, ?_⟩
  · rw [Option.ne_none_iff_isSome]; exact hv.1.1
  · rw [Option.ne_none_iff_isSome]; exact hv.1.2

/-- Claim C4, witness: a concrete valid row survives normalization and
satisfies the invariant. -/
theorem routePerformance_invariant_witness :
    (normalizeRouteRow c4row).Route ≠ "" ∧
    (normalizeRouteRow c4row).Avg_Delay_Min ≠ none ∧
    (normalizeRouteRow c4row).Delay_Count ≠ none :=
  routePerformance_invariant [c4row] (normalizeRouteRow c4row) (by
    unfold processRoutePerformance
    rw [List.map_singleton, List.filter_cons_of_pos (by decide)]
    exact List.mem_singleton_self _)

/-- Claim C5.  Every coordinate pair kept in the processed geometry map
is a two-element `[lat, lng]` pair with `-90 ≤ lat ≤ 90` and
`-180 ≤ lng ≤ 180` (pairs failing this are dropped by the filter), and a
route id only appears in the map with a non-empty coordinate list (routes
whose list empties out are omitted rather than kept empty). -/
theorem geometry_invariant (data : List (String × Option (List (List ℚ))))
    (rid : String) (coords : List (List ℚ))
    (hmem : (rid, coords) ∈ processGeometries data) :
    coords ≠ [] ∧ ∀ pair ∈ coords, ∃ lat lng : ℚ, pair = [lat, lng] ∧
      -90 ≤ lat ∧ lat ≤ 90 ∧ -180 ≤ lng ∧ lng ≤ 180 := by
  unfold processGeometries at hmem
  obtain ⟨entry, -, hsome⟩ := List.mem_filterMap.mp hmem
  unfold processGeometryEntry at hsome
  rcases hent : entry.2 with - | rawCoords
  · rw [hent] at hsome; exact absurd hsome (by simp)
  rw [hent] at hsome
  dsimp only at hsome
  by_cases hraw : rawCoords = []
  · rw [if_pos hraw] at hsome; exact absurd hsome (by simp)
  rw [if_neg hraw] at hsome
  by_cases hval : rawCoords.filter isValidCoordPair = []
  · rw [if_pos hval] at hsome; exact absurd hsome (by simp)
  rw [if_neg hval] at hsome
  have hcoords : coords = rawCoords.filter isValidCoordPair :=
    congrArg Prod.snd (Option.some.inj hsome) |>.symm
  constructor
  · rw [hcoords]; exact hval
  · intro pair hpair
    rw [hcoords] at hpair
    have hvp := (List.mem_filter.mp hpair).2
    unfold isValidCoordPair at hvp
    rcases pair with - | ⟨lat, pair⟩
    · exact absurd hvp (by simp)
    rcases pair with - | ⟨lng, pair⟩
    · exact absurd hvp (by simp)
    rcases pair with - | ⟨x, pair⟩
    · refine ⟨lat, lng, rfl, ?_⟩
      unfold isValidCoordinate at hvp
      simp only [Bool.and_eq_true, decide_eq_true_eq] at hvp
      exact ⟨hvp.2.1.1.1, hvp.2.1.1.2, hvp.2.1.2, hvp.2.2⟩
    · exact absurd hvp (by simp)

/-- Claim C5, witness: a payload with one valid and one invalid pair
keeps exactly the valid pair, and the kept list satisfies the
invariant. -/
theorem geometry_invariant_witness :
    ([[(43 : ℚ), -79]] : List (List ℚ)) ≠ [] ∧
    ∀ pair ∈ ([[(43 : ℚ), -79]] : List (List ℚ)), ∃ lat lng : ℚ, pair = [lat, lng] ∧
      -90 ≤ lat ∧ lat ≤ 90 ∧ -180 ≤ lng ∧ lng ≤ 180 :=
  geometry_invariant c5data "501" [[43, -79]] (by decide)

/-- Claim C6.  `filterRoutes` keeps exactly the routes whose delay meets
the threshold AND (for a non-empty query) whose id or display name
contains the query case-insensitively; being a `List.filter`, it
preserves the input's relative order.  (For the empty display name the
code's extra truthiness guard coincides with plain containment, since a
non-empty query is never contained in an empty string.) -/
theorem filterRoutes_spec (routes : List RouteRecord) (delayThreshold : ℚ)
    (searchQuery : String) :
    filterRoutes routes delayThreshold searchQuery = routes.filter (fun r =>
      decide (delayThreshold ≤ numD r.Avg_Delay_Min) &&
        (decide (searchQuery = "") ||
          (jsIncludes (jsToLower r.Route) (jsToLower searchQuery) ||
            jsIncludes (jsToLower r.route_long_name) (jsToLower searchQuery)))) := by
  unfold filterRoutes
  by_cases hq : searchQuery = ""
  · simp [hq]
  · rw [if_pos hq, List.filter_filter]
    refine List.filter_congr ?_
    intro r _
    simp only [decide_eq_false hq, Bool.false_or]
    rw [Bool.and_comm]
    congr 1
    unfold searchMatch
    by_cases hn : r.route_long_name = ""
    · have hd : searchQuery.data ≠ [] := fun h => hq (String.ext h)
      have hfalse : jsIncludes (jsToLower "") (jsToLower searchQuery) = false := by
        show containsSub [] (jsToLower searchQuery).data = false
        show (jsToLower searchQuery).data.isEmpty = false
        show (searchQuery.data.map Char.toLower).isEmpty = false
        cases hsd : searchQuery.data with
        | nil => exact absurd hsd hd
        | cons c cs => simp
      simp [hn, hfalse]
    · simp [hn]

/-- Claim C7, counterexample.  The claim says every output record has
exactly one key per header-row column.  With the duplicate header row
`"a,a"` the JS object collapses the two columns onto one key (the later
cell wins), so the record has 1 key against 2 columns. -/
theorem parseCSV_dup_headers :
    parseCSV "a,a\n1,2" = [[("a", "2")]] ∧
    (parseHeaders "a,a\n1,2").length = 2 ∧
    ∃ row ∈ parseCSV "a,a\n1,2", row.length ≠ (parseHeaders "a,a\n1,2").length := by
  decide

/-- Claim C7, amended.  The parser never fails: fewer than 2 lines yield
the empty sequence; and when the header names are pairwise distinct
every output record is the header list zipped positionally against the
row's cells, with missing trailing cells backfilled by the empty string —
in particular each record has exactly one key per header column.  (With
duplicate header names the JS object merges those columns onto one key.) -/
theorem parseCSV_spec (csvText : String) (hnd : (parseHeaders csvText).Nodup) :
    ((csvLines csvText).length < 2 → parseCSV csvText = []) ∧
    parseCSV csvText = (dataLines csvText).map (fun line =>
      (parseHeaders csvText).enum.map (fun p => (p.2, (csvCells line).getD p.1 ""))) ∧
    (∀ row ∈ parseCSV csvText, row.length = (parseHeaders csvText).length) := by
  unfold parseCSV parseHeaders dataLines at *
  rcases hsplit : csvLines csvText with - | ⟨l0, - | ⟨l1, rest⟩⟩
  · exact ⟨fun _ => rfl, rfl, by simp⟩
  · exact ⟨fun _ => rfl, rfl, by simp⟩
  · rw [hsplit] at hnd
    refine ⟨?_, ?_, ?_⟩
    · intro hlen
      simp only [List.length_cons] at hlen
      omega
    · dsimp only
      refine List.map_congr_left ?_
      intro line _
      exact parseRow_nodup (csvCells l0) line hnd
    · intro row hrow
      dsimp only at hrow
      rcases List.mem_map.mp hrow with ⟨line, -, rfl⟩
      rw [parseRow_nodup (csvCells l0) line hnd]
      simp [List.enum_length]

/-- Claim C7, witness: a two-line payload with distinct headers and a
ragged data row. -/
theorem parseCSV_spec_witness :
    ((csvLines "Route,Avg_Delay_Min\n501").length < 2 →
      parseCSV "Route,Avg_Delay_Min\n501" = []) ∧
    parseCSV "Route,Avg_Delay_Min\n501" =
      (dataLines "Route,Avg_Delay_Min\n501").map (fun line =>
        (parseHeaders "Route,Avg_Delay_Min\n501").enum.map
          (fun p => (p.2, (csvCells line).getD p.1 ""))) ∧
    (∀ row ∈ parseCSV "Route,Avg_Delay_Min\n501",
      row.length = (parseHeaders "Route,Avg_Delay_Min\n501").length) :=
  parseCSV_spec "Route,Avg_Delay_Min\n501" (by decide)

/-- Claim C8, counterexample.  The claim says a parsed dataset with zero
usable records resolves to the documented fallback (sample geometries for
the geometry loader).  It is false for geometries: a payload whose only
coordinate pair is invalid processes to the empty map, not to the sample
geometries (which always hold six routes). -/
theorem loadRouteGeometries_empty_not_sample :
    loadRouteGeometries c8sample (some c8payload) = [] ∧ c8sample ≠ [] := by
  constructor
  · decide
  · decide

/-- Claim C8, amended.  Each load boundary resolves a thrown fetch/parse
(`none`) to its documented fallback — sample routes, sample geometries,
the default statistics snapshot, the empty location list — and
`loadRoutePerformance` additionally falls back to the sample routes when
the parsed dataset is empty or normalizes to zero records, so it always
returns a non-empty collection; the geometry loader, however, returns
whatever survives processing of a successfully parsed payload (possibly
the empty map), falling back to the samples only on a throw. -/
theorem load_boundary_fallbacks (now : String) (sampleG : GeoMap)
    (jp : String → Option (List ℚ)) :
    loadRoutePerformance none = getSampleRoutePerformance ∧
    (∀ rows : List CsvRow, processRoutePerformance rows = [] →
      loadRoutePerformance (some rows) = getSampleRoutePerformance) ∧
    (∀ outcome, loadRoutePerformance outcome = getSampleRoutePerformance ∨
      ∃ rows, outcome = some rows ∧
        loadRoutePerformance outcome = processRoutePerformance rows ∧
        processRoutePerformance rows ≠ []) ∧
    (∀ outcome, loadRoutePerformance outcome ≠ []) ∧
    loadRouteGeometries sampleG none = sampleG ∧
    (∀ data, loadRouteGeometries sampleG (some data) = processGeometries data) ∧
    loadSummaryStatistics now none = getDefaultStatistics now ∧
    loadLocationAnalysis jp none = [] := by
  have hs : getSampleRoutePerformance ≠ [] := by
    unfold getSampleRoutePerformance
    exact List.cons_ne_nil _ _
  refine ⟨rfl, ?_, ?_, ?_, rfl, fun _ => rfl, rfl, rfl⟩
  · intro rows hproc
    unfold loadRoutePerformance
    dsimp only
    split_ifs <;> simp_all
  · intro outcome
    match outcome with
    | none => exact Or.inl rfl
    | some rows =>
      unfold loadRoutePerformance
      dsimp only
      split_ifs with h1 h2
      · exact Or.inl rfl
      · exact Or.inl rfl
      · exact Or.inr ⟨rows, rfl, rfl, h2⟩
  · intro outcome
    match outcome with
    | none => exact hs
    | some rows =>
      unfold loadRoutePerformance
      dsimp only
      split_ifs with h1 h2
      · exact hs
      · exact hs
      · exact h2

/-- Claim C8, witness: a payload with one empty row normalizes to zero
records and resolves to the sample routes. -/
theorem load_boundary_fallbacks_witness :
    loadRoutePerformance (some [[]]) = getSampleRoutePerformance :=
  (load_boundary_fallbacks "" [] (fun _ => none)).2.1 [[]] (by decide)

/-- Claim C9.  Date-range filtering with both bounds absent is the
identity on the record collection. -/
theorem filterByDateRange_none_none (records : List DelayEvent) :
    filterByDateRange records none none = records := rfl

/-- Claim C10.  For every pair of lowercase 6-hex-digit colours (ranged
over as byte triples, whose `byteColorString` images are exactly those
strings): interpolating at ratio `0` returns the first colour, at `1`
the second, and at any ratio in `[0, 1]` the result is `"#"` followed by
exactly six lowercase hex digits (the image of three bytes). -/
theorem interpolateColor_spec (r1 g1 b1 r2 g2 b2 : ℕ)
    (h1 : r1 < 256) (h2 : g1 < 256) (h3 : b1 < 256)
    (h4 : r2 < 256) (h5 : g2 < 256) (h6 : b2 < 256) :
    interpolateColor (byteColorString r1 g1 b1) (byteColorString r2 g2 b2) 0 =
      some (byteColorString r1 g1 b1) ∧
    interpolateColor (byteColorString r1 g1 b1) (byteColorString r2 g2 b2) 1 =
      some (byteColorString r2 g2 b2) ∧
    (∀ ratio : ℚ, 0 ≤ ratio → ratio ≤ 1 →
      ∃ rr gg bb : ℕ, rr < 256 ∧ gg < 256 ∧ bb < 256 ∧
        interpolateColor (byteColorString r1 g1 b1) (byteColorString r2 g2 b2) ratio =
          some (byteColorString rr gg bb)) := by
  refine ⟨?_, ?_, ?_⟩
  · rw [interpolateColor_eval r1 g1 b1 r2 g2 b2 h1 h2 h3 h4 h5 h6 0 le_rfl zero_le_one]
    congr 1
    rw [show ((r1 : ℚ) + ((r2 : ℚ) - (r1 : ℚ)) * 0) = (r1 : ℚ) by ring,
      show ((g1 : ℚ) + ((g2 : ℚ) - (g1 : ℚ)) * 0) = (g1 : ℚ) by ring,
      show ((b1 : ℚ) + ((b2 : ℚ) - (b1 : ℚ)) * 0) = (b1 : ℚ) by ring,
      jsRound_natCast, jsRound_natCast, jsRound_natCast]
    simp
  · rw [interpolateColor_eval r1 g1 b1 r2 g2 b2 h1 h2 h3 h4 h5 h6 1 zero_le_one le_rfl]
    congr 1
    rw [show ((r1 : ℚ) + ((r2 : ℚ) - (r1 : ℚ)) * 1) = (r2 : ℚ) by ring,
      show ((g1 : ℚ) + ((g2 : ℚ) - (g1 : ℚ)) * 1) = (g2 : ℚ) by ring,
      show ((b1 : ℚ) + ((b2 : ℚ) - (b1 : ℚ)) * 1) = (b2 : ℚ) by ring,
      jsRound_natCast, jsRound_natCast, jsRound_natCast]
    simp
  · intro ratio hr0 hr1
    have cr := channel_bounds r1 r2 h1 h4 ratio hr0 hr1
    have cg := channel_bounds g1 g2 h2 h5 ratio hr0 hr1
    have cb := channel_bounds b1 b2 h3 h6 ratio hr0 hr1
    refine ⟨_, _, _, ?_, ?_, ?_,
      interpolateColor_eval r1 g1 b1 r2 g2 b2 h1 h2 h3 h4 h5 h6 ratio hr0 hr1⟩
    · have := jsRound_le_255 _ cr.2; omega
    · have := jsRound_le_255 _ cg.2; omega
    · have := jsRound_le_255 _ cb.2; omega

/-- Claim C10, witness: the two delay-scale config colours, with the
general ratio clause instantiated at one half. -/
theorem interpolateColor_spec_witness :
    interpolateColor (byteColorString 16 185 129) (byteColorString 245 158 11) 0 =
      some (byteColorString 16 185 129) ∧
    interpolateColor (byteColorString 16 185 129) (byteColorString 245 158 11) 1 =
      some (byteColorString 245 158 11) ∧
    ∃ rr gg bb : ℕ, rr < 256 ∧ gg < 256 ∧ bb < 256 ∧
      interpolateColor (byteColorString 16 185 129) (byteColorString 245 158 11) (1/2) =
        some (byteColorString rr gg bb) := by
  obtain ⟨h0, h1, hall⟩ := interpolateColor_spec 16 185 129 245 158 11
    (by decide) (by decide) (by decide) (by decide) (by decide) (by decide)
  exact ⟨h0, h1, hall (1/2) (by norm_num) (by norm_num)⟩
